import Mathlib

/-!
Verification of the k23 virtual-memory subsystem specification against a
shallow embedding of the source code.

Embedded components:
* `libs/vmm/src/flush.rs` — the per-asid TLB flush batch (`Flush`).
* `kernel/src/allocator.rs` — the kernel heap OOM handler (`OomHandler`,
  `ensure_mapped`, `handle_oom`, `init`), together with the `talc::Span`
  operations it uses (modelled from the talc crate's documented behaviour)
  and the `vmm` frame-allocator contract.
* `kernel/src/vm/user_mmap.rs` — the user memory wrapper (`UserMmap`).
* `kernel/src/vm/trap_handler.rs` — `handle_page_fault`.

Machine integers (`usize`) are modelled as `Nat`; the address values in all
the scenarios considered are far below `2^64`, and the source arithmetic in
question uses `checked_add` / never relies on wrap-around.
-/

namespace K23

/-- `usize`-sized virtual address (`vmm::VirtualAddress` is a newtype over
`usize`). -/
abbrev VirtualAddress := Nat

/-- `usize`-sized physical address. -/
abbrev PhysicalAddress := Nat

/-- `core::ops::Range` over addresses / offsets: half-open `[start, stop)`.
The Rust field `end` is a Lean keyword, so it is named `stop` here. -/
structure VRange where
  start : Nat
  stop : Nat
deriving DecidableEq, Repr

/-- `Range::is_empty`: `!(start < end)`. -/
def VRange.isEmpty (r : VRange) : Bool := !(r.start < r.stop)

/-- `Range::default()` for `Range<usize>`-like ranges: `0..0`. -/
def VRange.default : VRange := ⟨0, 0⟩

/-- Size in bytes of a half-open range (`end - start`). -/
def VRange.size (r : VRange) : Nat := r.stop - r.start

/-- The error kinds of the subsystem (`vmm::Error` / kernel `vm::Error`),
restricted to the variants the embedded code paths can produce.
`WriteExecute` stands for the W^X rejection error of the kernel vm layer
(spec §4.4); `Panic` marks a Rust `unwrap`/`assert!` failure. -/
inductive Error where
  | AddressSpaceMismatch (expected found : Nat)
  | OutOfMemory
  | Trap
  | WriteExecute
  | Panic
deriving DecidableEq, Repr

/-! ## `libs/vmm/src/flush.rs` -/

/-- `vmm::Flush`: a pending-TLB-invalidation batch for one asid.
`range` is the accumulated pending range (`Option<Range<VirtualAddress>>`). -/
structure Flush where
  asid : Nat
  range : Option VRange
deriving DecidableEq, Repr

/-- `Flush::empty(asid)`. -/
def Flush.empty (asid : Nat) : Flush := ⟨asid, none⟩

/-- `Flush::new(asid, range)`. -/
def Flush.new (asid : Nat) (range : VRange) : Flush := ⟨asid, some range⟩

/-- `Flush::extend_range(&mut self, asid, other)`. Returns the updated batch
together with the `Result`; on the error path the batch is returned
untouched, mirroring the fact that the Rust code does not write to `self`
there. Faithful to the source: on the merge path the new end is
`cmp::max(this.start, other.end)` (flush.rs line 54). -/
def Flush.extend_range (f : Flush) (asid : Nat) (other : VRange) :
    Flush × Except Error Unit :=
  if f.asid = asid then
    match f.range with
    | some this =>
        ({ f with range := some ⟨min this.start other.start,
                                 max this.start other.stop⟩ }, .ok ())
    | none => ({ f with range := some other }, .ok ())
  else
    (f, .error (.AddressSpaceMismatch f.asid asid))

/-- `Flush::flush(self)`. `M::invalidate_range` is architecture code outside
this batch (an SBI remote fence); it is passed in as `inv`. The first
component records every invalidation request issued, as an
`(asid, range)` pair. -/
def Flush.flush (f : Flush) (inv : Nat → VRange → Except Error Unit) :
    List (Nat × VRange) × Except Error Unit :=
  match f.range with
  | some range => ([(f.asid, range)], inv f.asid range)
  | none => ([], .ok ())

/-- The pending range `extend_range` is specified to produce on the merge
path (spec §4.3): the min-start/max-end union of the two ranges. -/
def specMergedRange (this other : VRange) : VRange :=
  ⟨min this.start other.start, max this.stop other.stop⟩

/-! ## `kernel/src/allocator.rs` and its collaborators -/

/-- `kconfig::PAGE_SIZE`: 4 KiB pages (the Sv39 mode constant in
`libs/vmm/src/arch/riscv64.rs`). -/
def PAGE_SIZE : Nat := 4096

/-- riscv64 `EntryFlags::READ` = `1 << 1` (libs/vmm/src/arch/riscv64.rs),
as a `Nat` bitset value. -/
def EntryFlags.READ : Nat := 2

/-- riscv64 `EntryFlags::WRITE` = `1 << 2`. -/
def EntryFlags.WRITE : Nat := 4

/-- `talc::Span`: a half-open span of addresses `[base, acme)`. The talc
crate is an external dependency; its span operations below are modelled
from its documented behaviour. -/
structure Span where
  base : Nat
  acme : Nat
deriving DecidableEq, Repr

/-- `Span::empty()`. -/
def Span.emptySpan : Span := ⟨0, 0⟩

/-- `Span::is_empty`: no addresses inside. -/
def Span.isEmptySpan (s : Span) : Bool := decide (s.acme ≤ s.base)

/-- `Span::from_base_size(base, size)`. -/
def Span.from_base_size (base size : Nat) : Span := ⟨base, base + size⟩

/-- `Span::size`: byte count `acme - base`. -/
def Span.size (s : Span) : Nat := s.acme - s.base

/-- `Span::extend(low, high)`: extend downward by `low` bytes and upward by
`high` bytes. -/
def Span.extend (s : Span) (low high : Nat) : Span :=
  ⟨s.base - low, s.acme + high⟩

/-- `Span::below(ptr)`: truncate the span to the portion below `ptr`. -/
def Span.below (s : Span) (p : Nat) : Span := ⟨min s.base p, min s.acme p⟩

/-- `Span::above(ptr)`: truncate the span to the portion at or above
`ptr`. -/
def Span.above (s : Span) (p : Nat) : Span := ⟨max s.base p, max s.acme p⟩

/-- `Span::except(other)`: the portions of `self` outside `other`, as the
pair (part below `other`, part above `other`). -/
def Span.except (s other : Span) : Span × Span :=
  (s.below other.base, s.above other.acme)

/-- Rust `usize::div_ceil` for a positive divisor. -/
def div_ceil (a b : Nat) : Nat := (a + b - 1) / b

/-- Modelled from the spec: the concrete frame-allocator strategies
(`BumpAllocator`, `BitMapAllocator`) are not under src — only the
`FrameAllocator` trait (libs/vmm/src/alloc/mod.rs) is. Per the contract
"allocate_frames(n) -> PhysicalAddress | OutOfMemory" (spec §4.1) and the
usage accounting of spec §8, the model keeps a used/total frame count:
allocating `n` frames succeeds iff `n` more frames fit, returns the next
free frame's base address, and advances `used` by exactly `n` frames. -/
structure FrameAlloc where
  used : Nat
  total : Nat
deriving DecidableEq, Repr

/-- `FrameAllocator::allocate_frames(frames)` (see `FrameAlloc`). -/
def FrameAlloc.allocate_frames (a : FrameAlloc) (frames : Nat) :
    FrameAlloc × Except Error PhysicalAddress :=
  if a.used + frames ≤ a.total then
    ({ a with used := a.used + frames }, .ok (a.used * PAGE_SIZE))
  else
    (a, .error .OutOfMemory)

/-- A record of one `Mapper::map_range` call: the virtual range, the
physical range and the entry flags passed. The `vmm` mapper itself is not
under src; per spec §4.2 `map_range` writes leaf entries for every page of
the given range, so recording the arguments captures exactly which pages
get mapped and with what flags. -/
structure MapAction where
  virt : VRange
  phys : VRange
  flags : Nat
deriving DecidableEq, Repr

/-- Result of `OomHandler::ensure_mapped`: the frame-allocator state after
the call, the `map_range` calls issued, the invalidations flushed, and the
returned `Result`. -/
structure EnsureMappedResult where
  alloc : FrameAlloc
  maps : List MapAction
  flushes : List (Nat × VRange)
  result : Except Error Unit
deriving Repr

/-- The body of `OomHandler::ensure_mapped` after `span_to_map` has been
computed (kernel/src/allocator.rs lines 54-76): allocate
`allocate_frames(span_to_map.size())`, build the physical and virtual
ranges, `map_range` them with `READ | WRITE`, and flush. `map_range` (not
under src) records the virtual range into the flush batch per spec §4.2;
the architecture invalidation itself (an SBI remote fence) is modelled as
succeeding. -/
def ensure_mapped_body (frame_alloc : FrameAlloc) (span_to_map : Span) :
    EnsureMappedResult :=
  match frame_alloc.allocate_frames span_to_map.size with
  | (alloc, .error e) => ⟨alloc, [], [], .error e⟩
  | (alloc, .ok base) =>
      let heap_phys : VRange := ⟨base, base + span_to_map.size⟩
      let heap_virt : VRange := ⟨span_to_map.base, span_to_map.acme⟩
      let flush := Flush.new 0 heap_virt
      ⟨alloc, [⟨heap_virt, heap_phys, EntryFlags.READ ||| EntryFlags.WRITE⟩],
        (flush.flush (fun _ _ => .ok ())).1, .ok ()⟩

/-- `OomHandler::ensure_mapped` (kernel/src/allocator.rs lines 41-77):
compute `span_to_map` as the set-difference of the new and old spans (or
the whole new span when there is no old span), then map it. The Rust
`assert!(empty.is_empty())` is modelled as a `Panic` error. -/
def ensure_mapped (frame_alloc : FrameAlloc) (old_heap : Option Span)
    (new_heap : Span) : EnsureMappedResult :=
  match old_heap with
  | some old =>
      let es := new_heap.except old
      if es.1.isEmptySpan then ensure_mapped_body frame_alloc es.2
      else ⟨frame_alloc, [], [], .error .Panic⟩
  | none => ensure_mapped_body frame_alloc new_heap

/-- The talc OOM-handler state (kernel/src/allocator.rs `struct
OomHandler`): the committed heap span and the ceiling `max`. -/
structure OomHandler where
  heap : Span
  max : Nat
deriving DecidableEq, Repr

/-- Result of `handle_oom` / `init`: handler state, frame-allocator state,
map calls, flushes, and outcome. -/
structure OomResult where
  state : OomHandler
  alloc : FrameAlloc
  maps : List MapAction
  flushes : List (Nat × VRange)
  result : Except Error Unit
deriving Repr

/-- The new heap span computed by `handle_oom` (allocator.rs lines 86-95):
extend the current span by
`old_heap.size().max(layout.size()).div_ceil(PAGE_SIZE) * PAGE_SIZE` and
clamp it below the ceiling. -/
def oomNewHeap (st : OomHandler) (layoutSize : Nat) : Span :=
  (st.heap.extend 0
      (div_ceil (max st.heap.size layoutSize) PAGE_SIZE * PAGE_SIZE)).below
    st.max

/-- The same computation written from the spec's words (§4.6): extend the
span by `max(current_size, requested_size)` rounded up to a page multiple,
clamped so the span never crosses the configured ceiling. Kept separate
from `oomNewHeap` so the code formula can be compared against the spec
formula. -/
def specOomNewSpan (current : Span) (ceiling requested : Nat) : Span :=
  let growth :=
    (max (current.acme - current.base) requested + PAGE_SIZE - 1) / PAGE_SIZE
      * PAGE_SIZE
  ⟨min current.base ceiling, min (current.acme + growth) ceiling⟩

/-- `<OomHandler as talc::OomHandler>::handle_oom` (allocator.rs lines
81-113). A `Result::Err` from the handler makes talc report the allocation
as failed, i.e. out of memory; modelled as `Error.OutOfMemory`.
`talc.extend(old_heap, new_heap)` is the external talc crate adopting the
requested span as the new heap; modelled as returning `new_heap`. -/
def handle_oom (st : OomHandler) (alloc : FrameAlloc) (layoutSize : Nat) :
    OomResult :=
  let old_heap := st.heap
  let new_heap := oomNewHeap st layoutSize
  if new_heap = old_heap then ⟨st, alloc, [], [], .error .OutOfMemory⟩
  else
    let r := ensure_mapped alloc (some old_heap) new_heap
    match r.result with
    | .error e => ⟨st, r.alloc, r.maps, r.flushes, .error e⟩
    | .ok _ => ⟨{ st with heap := new_heap }, r.alloc, r.maps, r.flushes, .ok ()⟩

/-- `allocator::init` (allocator.rs lines 16-33): set the heap span to one
page at the bottom of the given range, record the range's end as the
ceiling, map that first page and hand it to talc (`claim`, external,
modelled as accepting the span). The handler state is written before
`ensure_mapped` runs, exactly as in the source. -/
def allocInit (frame_alloc : FrameAlloc) (heap : VRange) : OomResult :=
  let st : OomHandler := ⟨Span.from_base_size heap.start PAGE_SIZE, heap.stop⟩
  let r := ensure_mapped frame_alloc none st.heap
  ⟨st, r.alloc, r.maps, r.flushes, r.result⟩

/-! ## `kernel/src/vm/user_mmap.rs` -/

/-- Modelled from the spec: the kernel `Permissions` bitflags type lives
in the kernel vm module, which is not under src (only its users are). Per
spec §3 the permission bits are READ/WRITE/EXECUTE/USER, modelled as one
Bool per bit. -/
structure Permissions where
  read : Bool
  write : Bool
  execute : Bool
  user : Bool
deriving DecidableEq, Repr

/-- `Permissions::READ`. -/
def Permissions.READ : Permissions := ⟨true, false, false, false⟩

/-- `Permissions::WRITE`. -/
def Permissions.WRITE : Permissions := ⟨false, true, false, false⟩

/-- `Permissions::EXECUTE`. -/
def Permissions.EXECUTE : Permissions := ⟨false, false, true, false⟩

/-- `Permissions::USER`. -/
def Permissions.USER : Permissions := ⟨false, false, false, true⟩

/-- Bitflags union `a | b`. -/
def Permissions.or (a b : Permissions) : Permissions :=
  ⟨a.read || b.read, a.write || b.write, a.execute || b.execute,
   a.user || b.user⟩

/-- Modelled from the spec: `AddressSpaceRegion` (spec §3) as far as the
`UserMmap` paths touch it — its range and its recorded permissions. -/
structure AddressSpaceRegion where
  range : VRange
  permissions : Permissions
deriving DecidableEq, Repr

/-- Modelled from the spec: the user `AddressSpace`'s ordered region set
(spec §3), as a list of regions; `regions.find_mut(&addr)` locates the
region containing `addr`. -/
structure AddressSpace where
  regions : List AddressSpaceRegion
deriving DecidableEq, Repr

/-- Whether a region's range contains an address. -/
def regionContains (reg : AddressSpaceRegion) (addr : Nat) : Bool :=
  decide (reg.range.start ≤ addr ∧ addr < reg.range.stop)

/-- Observable page-table effects of a `UserMmap` operation. -/
inductive VmAction where
  | updateFlags (start : Nat) (len : Nat) (perms : Permissions)
  | flushTlb
  | commitPages (range : VRange) (will_write : Bool)
deriving DecidableEq, Repr

/-- Modelled from the spec: `ArchAddressSpace::update_flags` is kernel vm
code not under src (only its caller `UserMmap::protect` is). Per spec
§4.4 this layer "rejects a simultaneous WRITE+EXECUTE request with an
error" (W^X enforcement); otherwise it rewrites the flags of the existing
leaf entries. Modelled as failing exactly on a set with both WRITE and
EXECUTE. -/
def arch_update_flags (perms : Permissions) : Except Error Unit :=
  if perms.write ∧ perms.execute then .error .WriteExecute else .ok ()

/-- `vm::UserMmap`: a handle holding the mapping's virtual range. -/
structure UserMmap where
  range : VRange
deriving DecidableEq, Repr

/-- `UserMmap::new_empty()`: a default (empty `0..0`) range. -/
def UserMmap.new_empty : UserMmap := ⟨VRange.default⟩

/-- `UserMmap::protect` (user_mmap.rs lines 201-226): on an empty range do
nothing and return `Ok`; otherwise look up the region containing the start
address (the `unwrap` panics when there is none, modelled as `Panic`),
overwrite its recorded permissions, rewrite the page-table flags over the
whole range via `update_flags` and flush. Returns the updated address
space, the actions performed and the result. -/
def UserMmap.protect (m : UserMmap) (a : AddressSpace)
    (new_permissions : Permissions) :
    AddressSpace × List VmAction × Except Error Unit :=
  if !m.range.isEmpty then
    if a.regions.any (fun reg => regionContains reg m.range.start) then
      let a' : AddressSpace :=
        ⟨a.regions.map fun reg =>
          if regionContains reg m.range.start then
            { reg with permissions := new_permissions }
          else reg⟩
      match arch_update_flags new_permissions with
      | .error e => (a', [], .error e)
      | .ok _ =>
          (a', [.updateFlags m.range.start m.range.size new_permissions,
                .flushTlb], .ok ())
    else (a, [], .error .Panic)
  else (a, [], .ok ())

/-- `UserMmap::make_executable`: `protect` with
`Permissions::READ | Permissions::EXECUTE | Permissions::USER`. -/
def UserMmap.make_executable (m : UserMmap) (a : AddressSpace) :
    AddressSpace × List VmAction × Except Error Unit :=
  m.protect a (Permissions.READ.or (Permissions.EXECUTE.or Permissions.USER))

/-- `UserMmap::make_readonly`: `protect` with
`Permissions::READ | Permissions::USER`. -/
def UserMmap.make_readonly (m : UserMmap) (a : AddressSpace) :
    AddressSpace × List VmAction × Except Error Unit :=
  m.protect a (Permissions.READ.or Permissions.USER)

/-- `UserMmap::commit` (user_mmap.rs lines 228-251): on an empty range do
nothing; otherwise locate the region (`unwrap`), build
`src_range = (self.range.start + range.start) .. (self.range.end + range.start)`
— faithful to the source's two `checked_add` calls — and have the region
commit that range, then flush the batch. `AddressSpaceRegion::commit` is
kernel vm code not under src; per spec §4.5 it ensures the pages of the
range it is given are Committed (lazy commit); the recorded
`commitPages` action captures the range passed to it. -/
def UserMmap.commit (m : UserMmap) (a : AddressSpace) (range : VRange)
    (will_write : Bool) : List VmAction × Except Error Unit :=
  if !m.range.isEmpty then
    if a.regions.any (fun reg => regionContains reg m.range.start) then
      let src_range : VRange :=
        ⟨m.range.start + range.start, m.range.stop + range.start⟩
      ([.commitPages src_range will_write, .flushTlb], .ok ())
    else ([], .error .Panic)
  else ([], .ok ())

/-- The sub-range the spec says a user-space copy must ensure committed
(§4.5 / C2): `[mmap.start + range.start, mmap.start + range.end)`. -/
def specCommitTarget (m : UserMmap) (range : VRange) : VRange :=
  ⟨m.range.start + range.start, m.range.start + range.stop⟩

/-- `traps::catch_traps` around the raw user copy, modelled with a fault
oracle: the scoped region converts a hardware page fault raised at one of
the addresses the copy actually touches into `Error::Trap`; with no fault
the closure's copy completes and `Ok` is returned. -/
def catch_traps_copy (oracle : Nat → Bool) (accessed : VRange) :
    Except Error Unit :=
  if (List.range accessed.size).any (fun i => oracle (accessed.start + i))
  then .error .Trap
  else .ok ()

/-- `UserMmap::copy_from_userspace` via `with_user_slice` (user_mmap.rs
lines 80-124): commit, then run `dst.clone_from_slice(&slice[range])`
inside the trap-catching scope. The slice indexing panics when `range` is
out of bounds of the mapping, and `clone_from_slice` panics when the two
lengths differ; both are modelled as `Panic`. `dstLen` is the destination
buffer's length. -/
def UserMmap.copy_from_userspace (m : UserMmap) (a : AddressSpace)
    (src_range : VRange) (dstLen : Nat) (oracle : Nat → Bool) :
    List VmAction × Except Error Unit :=
  match m.commit a src_range false with
  | (acts, .error e) => (acts, .error e)
  | (acts, .ok _) =>
      if src_range.start ≤ src_range.stop ∧ src_range.stop ≤ m.range.size then
        if dstLen = src_range.size then
          (acts, catch_traps_copy oracle
            ⟨m.range.start + src_range.start, m.range.start + src_range.stop⟩)
        else (acts, .error .Panic)
      else (acts, .error .Panic)

/-- `UserMmap::copy_to_userspace` via `with_user_slice_mut` (user_mmap.rs
lines 89-155): commit with `will_write`, then run
`slice[range].copy_from_slice(src)` inside the trap-catching scope.
`srcLen` is the source buffer's length. -/
def UserMmap.copy_to_userspace (m : UserMmap) (a : AddressSpace)
    (srcLen : Nat) (dst_range : VRange) (oracle : Nat → Bool) :
    List VmAction × Except Error Unit :=
  match m.commit a dst_range true with
  | (acts, .error e) => (acts, .error e)
  | (acts, .ok _) =>
      if dst_range.start ≤ dst_range.stop ∧ dst_range.stop ≤ m.range.size then
        if srcLen = dst_range.size then
          (acts, catch_traps_copy oracle
            ⟨m.range.start + dst_range.start, m.range.start + dst_range.stop⟩)
        else (acts, .error .Panic)
      else (acts, .error .Panic)

/-! ## `kernel/src/vm/trap_handler.rs` -/

/-- `riscv::scause::Exception`, restricted to the page-fault causes the
handler matches on, with a catch-all for every other exception cause. -/
inductive Exception where
  | LoadPageFault
  | StorePageFault
  | InstructionPageFault
  | OtherException
deriving DecidableEq, Repr

/-- `riscv::scause::Trap`. -/
inductive Trap where
  | Exception (e : Exception)
  | Interrupt
deriving DecidableEq, Repr

/-- Kernel `PageFaultFlags` access kinds (LOAD / STORE / INSTRUCTION). -/
inductive PageFaultFlags where
  | LOAD
  | STORE
  | INSTRUCTION
deriving DecidableEq, Repr

/-- `core::ops::ControlFlow<()>`. -/
inductive ControlFlow where
  | Continue
  | Break
deriving DecidableEq, Repr

/-- `handle_page_fault` (kernel/src/vm/trap_handler.rs lines 13-41). The
scheduler's current task and its address space's `page_fault` method are
outside src; a present current task is modelled as `some page_fault`,
where `page_fault` gives the task's address space's response to the
faulting address and access flags. -/
def handle_page_fault
    (current_task : Option (VirtualAddress → PageFaultFlags → Except Error Unit))
    (trap : Trap) (tval : VirtualAddress) : ControlFlow :=
  match current_task with
  | none => .Continue
  | some page_fault =>
      let flags? : Option PageFaultFlags :=
        match trap with
        | .Exception .LoadPageFault => some .LOAD
        | .Exception .StorePageFault => some .STORE
        | .Exception .InstructionPageFault => some .INSTRUCTION
        | _ => none
      match flags? with
      | none => .Continue
      | some flags =>
          match page_fault tval flags with
          | .error _ => .Continue
          | .ok _ => .Break

end K23

namespace K23

/-- C1: the claim's merge rule fails on the code. With pending range
`[10, 20)` and `extend_range(0, [0, 5))` on a matching asid, the source
computes the new pending range as `[min 10 0, max 10 5) = [0, 10)` — it
takes the max of the old range's *start* (not end) with the new end —
whereas the claimed min-start/max-end union is `[0, 20)`. The old range's
tail `[10, 20)` is dropped from the pending batch. -/
theorem extend_range_drops_old_end :
    (Flush.extend_range ⟨0, some ⟨10, 20⟩⟩ 0 ⟨0, 5⟩).1.range = some ⟨0, 10⟩ ∧
    (Flush.extend_range ⟨0, some ⟨10, 20⟩⟩ 0 ⟨0, 5⟩).2 = .ok () ∧
    specMergedRange ⟨10, 20⟩ ⟨0, 5⟩ = ⟨0, 20⟩ ∧
    (⟨0, 10⟩ : VRange) ≠ ⟨0, 20⟩ := by
  exact ⟨rfl, rfl, rfl, by decide⟩

/-- C8: `extend_range` with a mismatched asid returns
`AddressSpaceMismatch { expected: self.asid, found: asid }` and leaves the
batch (asid and pending range) unchanged. -/
theorem extend_range_asid_mismatch (f : Flush) (b : Nat) (r : VRange)
    (h : f.asid ≠ b) :
    Flush.extend_range f b r =
      (f, .error (.AddressSpaceMismatch f.asid b)) := by
  unfold Flush.extend_range
  simp [h]

/-- Witness for C8 at a concrete input: a batch with asid 3 and pending
range `[100, 200)`, extended with asid 7. -/
theorem extend_range_asid_mismatch_witness :
    Flush.extend_range ⟨3, some ⟨100, 200⟩⟩ 7 ⟨0, 50⟩ =
      (⟨3, some ⟨100, 200⟩⟩, .error (.AddressSpaceMismatch 3 7)) :=
  extend_range_asid_mismatch ⟨3, some ⟨100, 200⟩⟩ 7 ⟨0, 50⟩ (by decide)

/-- C9: flushing a batch with no pending range issues no invalidation
request and returns `Ok`, whatever the architecture invalidation would do;
flushing a batch with a pending range issues exactly one invalidation
request, scoped to the batch's asid and that range. -/
theorem flush_empty_noop_nonempty_one_request
    (inv : Nat → VRange → Except Error Unit) (a : Nat) (r : VRange) :
    Flush.flush ⟨a, none⟩ inv = ([], .ok ()) ∧
    (Flush.flush ⟨a, some r⟩ inv).1 = [(a, r)] ∧
    (Flush.flush ⟨a, some r⟩ inv).2 = inv a r := by
  exact ⟨rfl, rfl, rfl⟩

/-- C3: `handle_oom` computes the new span exactly as the spec's formula
(extend by `max(current_size, requested_size)` rounded up to a page
multiple, clamped at the ceiling); the clamped span never crosses the
ceiling; if the clamped new span equals the old span the handler fails
with OutOfMemory leaving the handler state, allocator state untouched and
performing no mapping; and whenever the handler succeeds the resulting
heap span is exactly that formula. -/
theorem handle_oom_spec (st : OomHandler) (alloc : FrameAlloc) (l : Nat) :
    oomNewHeap st l = specOomNewSpan st.heap st.max l ∧
    (specOomNewSpan st.heap st.max l).acme ≤ st.max ∧
    (oomNewHeap st l = st.heap →
      handle_oom st alloc l = ⟨st, alloc, [], [], .error .OutOfMemory⟩) ∧
    ((handle_oom st alloc l).result = .ok () →
      (handle_oom st alloc l).state.heap = specOomNewSpan st.heap st.max l) := by
  have hform : oomNewHeap st l = specOomNewSpan st.heap st.max l := rfl
  refine ⟨hform, ?_, ?_, ?_⟩
  · simp [specOomNewSpan]
  · intro h
    unfold handle_oom
    simp [h]
  · intro h
    rw [← hform]
    unfold handle_oom at *
    by_cases hq : oomNewHeap st l = st.heap
    · simp [hq] at h
    · simp only [hq, if_false] at h ⊢
      rcases hr : (ensure_mapped alloc (some st.heap) (oomNewHeap st l)).result
        with e | u
      · simp [hr] at h
      · simp [hr]

/-- Witness for C3 on both sides: a heap already at its ceiling
(`[0, 4096)` with ceiling 4096) makes `handle_oom` fail with OutOfMemory
and change nothing; a heap `[0, 4096)` with ceiling 1000000 and plenty of
frames grows, and the resulting span is the spec formula's value
`[0, 8192)`. -/
theorem handle_oom_spec_witness :
    handle_oom ⟨⟨0, 4096⟩, 4096⟩ ⟨0, 100⟩ 1 =
      ⟨⟨⟨0, 4096⟩, 4096⟩, ⟨0, 100⟩, [], [], .error .OutOfMemory⟩ ∧
    (handle_oom ⟨⟨0, 4096⟩, 1000000⟩ ⟨0, 1000000000⟩ 1).state.heap =
      specOomNewSpan ⟨0, 4096⟩ 1000000 1 :=
  ⟨(handle_oom_spec ⟨⟨0, 4096⟩, 4096⟩ ⟨0, 100⟩ 1).2.2.1 (by decide),
   (handle_oom_spec ⟨⟨0, 4096⟩, 1000000⟩ ⟨0, 1000000000⟩ 1).2.2.2 rfl⟩

/-- C4: the claim fails on the code. Growing the heap from `[4096, 8192)`
to `[4096, 12288)` adds exactly one 4096-byte page, and `ensure_mapped`
does map exactly the set-difference `[8192, 12288)` with `READ | WRITE`
and then flushes it — but it calls `allocate_frames(span_to_map.size())`,
passing the size in *bytes* (4096) where the `FrameAllocator` contract
takes a number of *frames*, so it consumes 4096 frames from the frame
allocator instead of the 1 frame needed to back the newly-added page. -/
theorem ensure_mapped_allocates_bytes_as_frames :
    (ensure_mapped ⟨0, 1000000000⟩ (some ⟨4096, 8192⟩) ⟨4096, 12288⟩).maps =
      [⟨⟨8192, 12288⟩, ⟨0, 4096⟩, EntryFlags.READ ||| EntryFlags.WRITE⟩] ∧
    (ensure_mapped ⟨0, 1000000000⟩ (some ⟨4096, 8192⟩) ⟨4096, 12288⟩).flushes =
      [(0, ⟨8192, 12288⟩)] ∧
    (ensure_mapped ⟨0, 1000000000⟩ (some ⟨4096, 8192⟩)
        ⟨4096, 12288⟩).result = .ok () ∧
    (ensure_mapped ⟨0, 1000000000⟩ (some ⟨4096, 8192⟩) ⟨4096, 12288⟩).alloc.used
      = 4096 ∧
    (VRange.size ⟨8192, 12288⟩) / PAGE_SIZE = 1 ∧ (4096 : Nat) ≠ 1 := by
  exact ⟨rfl, rfl, rfl, by decide, by decide, by decide⟩

/-- Helper: `handle_oom` either leaves the handler state untouched (both
error paths) or replaces the heap span with `oomNewHeap`, keeping the
ceiling. -/
theorem handle_oom_state_cases (st : OomHandler) (alloc : FrameAlloc)
    (l : Nat) :
    (handle_oom st alloc l).state = st ∨
    (handle_oom st alloc l).state = ⟨oomNewHeap st l, st.max⟩ := by
  unfold handle_oom
  by_cases hq : oomNewHeap st l = st.heap
  · left; simp [hq]
  · rcases hr : (ensure_mapped alloc (some st.heap) (oomNewHeap st l)).result
      with e | u
    · left; simp [hq, hr]
    · right; simp [hq, hr]

/-- C5: the heap invariant. After `init` on a heap range at least one page
long, the handler state is a well-formed span whose end does not exceed
the ceiling; and `handle_oom` — on every outcome — keeps the ceiling,
keeps the span base, never lowers the span end (the span never shrinks),
and keeps the end at or below the ceiling. -/
theorem heap_span_invariant :
    (∀ (alloc : FrameAlloc) (heap : VRange),
      heap.start + PAGE_SIZE ≤ heap.stop →
      (allocInit alloc heap).state.heap.base ≤
          (allocInit alloc heap).state.heap.acme ∧
        (allocInit alloc heap).state.heap.acme ≤
          (allocInit alloc heap).state.max) ∧
    (∀ (st : OomHandler) (alloc : FrameAlloc) (l : Nat),
      st.heap.base ≤ st.heap.acme → st.heap.acme ≤ st.max →
      (handle_oom st alloc l).state.max = st.max ∧
        (handle_oom st alloc l).state.heap.base = st.heap.base ∧
        st.heap.acme ≤ (handle_oom st alloc l).state.heap.acme ∧
        (handle_oom st alloc l).state.heap.base ≤
          (handle_oom st alloc l).state.heap.acme ∧
        (handle_oom st alloc l).state.heap.acme ≤
          (handle_oom st alloc l).state.max) := by
  constructor
  · intro alloc heap h
    have hst : (allocInit alloc heap).state =
        ⟨Span.from_base_size heap.start PAGE_SIZE, heap.stop⟩ := rfl
    rw [hst]
    simp [Span.from_base_size]
    omega
  · intro st alloc l h1 h2
    have hgrow : (oomNewHeap st l).base = st.heap.base ∧
        st.heap.acme ≤ (oomNewHeap st l).acme ∧
        (oomNewHeap st l).acme ≤ st.max := by
      unfold oomNewHeap Span.extend Span.below
      simp only [Nat.sub_zero]
      omega
    rcases handle_oom_state_cases st alloc l with hs | hs <;> rw [hs]
    · exact ⟨rfl, rfl, le_refl _, h1, h2⟩
    · refine ⟨rfl, hgrow.1, hgrow.2.1, ?_, hgrow.2.2⟩
      calc (oomNewHeap st l).base = st.heap.base := hgrow.1
        _ ≤ st.heap.acme := h1
        _ ≤ (oomNewHeap st l).acme := hgrow.2.1

/-- Witness for C5 at concrete inputs: `init` on the range
`[0, 1048576)` and `handle_oom` on a heap `[0, 4096)` with ceiling
1048576. -/
theorem heap_span_invariant_witness :
    ((allocInit ⟨0, 100⟩ ⟨0, 1048576⟩).state.heap.base ≤
        (allocInit ⟨0, 100⟩ ⟨0, 1048576⟩).state.heap.acme ∧
      (allocInit ⟨0, 100⟩ ⟨0, 1048576⟩).state.heap.acme ≤
        (allocInit ⟨0, 100⟩ ⟨0, 1048576⟩).state.max) ∧
    ((handle_oom ⟨⟨0, 4096⟩, 1048576⟩ ⟨0, 100⟩ 1).state.max = 1048576 ∧
      (handle_oom ⟨⟨0, 4096⟩, 1048576⟩ ⟨0, 100⟩ 1).state.heap.base = 0 ∧
      4096 ≤ (handle_oom ⟨⟨0, 4096⟩, 1048576⟩ ⟨0, 100⟩ 1).state.heap.acme ∧
      (handle_oom ⟨⟨0, 4096⟩, 1048576⟩ ⟨0, 100⟩ 1).state.heap.base ≤
        (handle_oom ⟨⟨0, 4096⟩, 1048576⟩ ⟨0, 100⟩ 1).state.heap.acme ∧
      (handle_oom ⟨⟨0, 4096⟩, 1048576⟩ ⟨0, 100⟩ 1).state.heap.acme ≤
        (handle_oom ⟨⟨0, 4096⟩, 1048576⟩ ⟨0, 100⟩ 1).state.max) :=
  ⟨heap_span_invariant.1 ⟨0, 100⟩ ⟨0, 1048576⟩ (by decide),
   heap_span_invariant.2 ⟨⟨0, 4096⟩, 1048576⟩ ⟨0, 100⟩ 1 (by decide) (by decide)⟩

set_option maxRecDepth 10000 in
/-- C2: the claim fails on the code. For the mapping `[4096, 12288)` and
the requested sub-range `256..512`, `copy_from_userspace` does run the
commit-then-scoped-copy pipeline, but the range it ensures committed is
`[mmap.start + range.start, mmap.end + range.start) = [4352, 12544)` —
the source adds `range.start` to the mapping's *end* instead of adding
`range.end` to its start — not the claimed target sub-range
`[4352, 4608)`; the committed range even extends 256 bytes past the end
of the mapping itself. -/
theorem copy_commit_range_mismatch :
    (UserMmap.copy_from_userspace ⟨⟨4096, 12288⟩⟩
        ⟨[⟨⟨4096, 12288⟩, ⟨true, true, false, true⟩⟩]⟩ ⟨256, 512⟩ 256
        (fun _ => false)).1 =
      [.commitPages ⟨4352, 12544⟩ false, .flushTlb] ∧
    (UserMmap.copy_from_userspace ⟨⟨4096, 12288⟩⟩
        ⟨[⟨⟨4096, 12288⟩, ⟨true, true, false, true⟩⟩]⟩ ⟨256, 512⟩ 256
        (fun _ => false)).2 = .ok () ∧
    specCommitTarget ⟨⟨4096, 12288⟩⟩ ⟨256, 512⟩ = ⟨4352, 4608⟩ ∧
    (⟨4352, 12544⟩ : VRange) ≠ ⟨4352, 4608⟩ ∧
    ¬(12544 ≤ 12288) := by
  exact ⟨by decide, rfl, by decide, by decide, by decide⟩

/-- C6: W^X enforcement at the `UserMmap` layer. A `protect` request whose
permission set has both WRITE and EXECUTE never succeeds on a non-empty
mapping; `make_executable` requests exactly READ, EXECUTE and USER with
WRITE dropped, and `make_readonly` exactly READ and USER; both requested
sets are W^X-respecting, so neither operation can ever hit the
WRITE+EXECUTE rejection. -/
theorem wx_enforcement :
    (∀ (m : UserMmap) (a : AddressSpace) (p : Permissions),
      p.write = true → p.execute = true → m.range.isEmpty = false →
      ∀ u, (m.protect a p).2.2 ≠ .ok u) ∧
    (∀ (m : UserMmap) (a : AddressSpace),
      m.make_executable a = m.protect a ⟨true, false, true, true⟩ ∧
      m.make_readonly a = m.protect a ⟨true, false, false, true⟩) ∧
    Permissions.READ.or (Permissions.EXECUTE.or Permissions.USER) =
      ⟨true, false, true, true⟩ ∧
    Permissions.READ.or Permissions.USER = ⟨true, false, false, true⟩ ∧
    (∀ (m : UserMmap) (a : AddressSpace),
      (m.make_executable a).2.2 ≠ .error .WriteExecute ∧
      (m.make_readonly a).2.2 ≠ .error .WriteExecute) := by
  have harch : ∀ p : Permissions, p.write = true → p.execute = true →
      arch_update_flags p = .error .WriteExecute := by
    intro p hw hx
    simp [arch_update_flags, hw, hx]
  have hok : ∀ p : Permissions, ¬(p.write = true ∧ p.execute = true) →
      arch_update_flags p = .ok () := by
    intro p h
    simp [arch_update_flags, h]
  refine ⟨?_, ?_, by decide, by decide, ?_⟩
  · intro m a p hw hx hne u
    unfold UserMmap.protect
    rw [hne]
    by_cases hf : a.regions.any (fun reg => regionContains reg m.range.start)
    · simp [hf, harch p hw hx]
    · simp [hf]
  · intro m a
    exact ⟨rfl, rfl⟩
  · intro m a
    have hprot : ∀ p : Permissions, ¬(p.write = true ∧ p.execute = true) →
        (m.protect a p).2.2 ≠ .error .WriteExecute := by
      intro p h
      unfold UserMmap.protect
      by_cases he : m.range.isEmpty
      · simp [he]
      · simp only [Bool.not_eq_true] at he
        rw [he]
        by_cases hf : a.regions.any (fun reg => regionContains reg m.range.start)
        · simp [hf, hok p h]
        · simp [hf]
    exact ⟨hprot _ (by decide), hprot _ (by decide)⟩

/-- Witness for C6 at concrete inputs: on the mapping `[4096, 8192)` over
an address space with a matching RW region, a WRITE+EXECUTE `protect`
request does not succeed, and `make_executable` / `make_readonly` never
return the W^X rejection. -/
theorem wx_enforcement_witness :
    ((UserMmap.protect ⟨⟨4096, 8192⟩⟩
        ⟨[⟨⟨4096, 8192⟩, ⟨true, true, false, true⟩⟩]⟩
        ⟨true, true, true, true⟩).2.2 ≠ .ok ()) ∧
    ((UserMmap.make_executable ⟨⟨4096, 8192⟩⟩
        ⟨[⟨⟨4096, 8192⟩, ⟨true, true, false, true⟩⟩]⟩).2.2 ≠
      .error .WriteExecute) :=
  ⟨wx_enforcement.1 ⟨⟨4096, 8192⟩⟩
      ⟨[⟨⟨4096, 8192⟩, ⟨true, true, false, true⟩⟩]⟩
      ⟨true, true, true, true⟩ rfl rfl (by decide) (),
   (wx_enforcement.2.2.2.2 ⟨⟨4096, 8192⟩⟩
      ⟨[⟨⟨4096, 8192⟩, ⟨true, true, false, true⟩⟩]⟩).1⟩

/-- C7: `handle_page_fault` attempts correction only for load, store and
instruction page faults, translating the cause to the LOAD, STORE and
INSTRUCTION access flags respectively; with no current task, or for any
other trap cause, or when `page_fault` fails, it returns `Continue`, and
it returns `Break` exactly when `page_fault` succeeds. -/
theorem handle_page_fault_spec
    (pf : VirtualAddress → PageFaultFlags → Except Error Unit)
    (tval : VirtualAddress) :
    (∀ trap, handle_page_fault none trap tval = .Continue) ∧
    (handle_page_fault (some pf) (.Exception .LoadPageFault) tval = .Break ↔
      pf tval .LOAD = .ok ()) ∧
    (handle_page_fault (some pf) (.Exception .StorePageFault) tval = .Break ↔
      pf tval .STORE = .ok ()) ∧
    (handle_page_fault (some pf) (.Exception .InstructionPageFault) tval
        = .Break ↔ pf tval .INSTRUCTION = .ok ()) ∧
    (∀ trap, trap ≠ .Exception .LoadPageFault →
      trap ≠ .Exception .StorePageFault →
      trap ≠ .Exception .InstructionPageFault →
      handle_page_fault (some pf) trap tval = .Continue) ∧
    (∀ trap, handle_page_fault (some pf) trap tval = .Break ∨
      handle_page_fault (some pf) trap tval = .Continue) := by
  have hcase : ∀ (fl : PageFaultFlags) (r : Except Error Unit),
      (match r with
        | .error _ => ControlFlow.Continue
        | .ok _ => ControlFlow.Break) = .Break ↔ r = .ok () := by
    intro fl r
    rcases r with e | u
    · simp
    · cases u; simp
  refine ⟨fun _ => rfl, ?_, ?_, ?_, ?_, ?_⟩
  · exact hcase .LOAD (pf tval .LOAD)
  · exact hcase .STORE (pf tval .STORE)
  · exact hcase .INSTRUCTION (pf tval .INSTRUCTION)
  · intro trap h1 h2 h3
    rcases trap with e | _
    · rcases e with _ | _ | _ | _
      · exact absurd rfl h1
      · exact absurd rfl h2
      · exact absurd rfl h3
      · rfl
    · rfl
  · intro trap
    rcases h : handle_page_fault (some pf) trap tval with _ | _
    · right; rfl
    · left; rfl

/-- Witness for C7 at concrete inputs: an always-correcting `page_fault`
breaks on a load page fault and continues on an interrupt cause. -/
theorem handle_page_fault_spec_witness :
    handle_page_fault (some fun _ _ => .ok ()) (.Exception .LoadPageFault) 0
      = .Break ∧
    handle_page_fault (some fun _ _ => .ok ()) .Interrupt 0 = .Continue ∧
    handle_page_fault none (.Exception .LoadPageFault) 0 = .Continue :=
  ⟨(handle_page_fault_spec (fun _ _ => .ok ()) 0).2.1.mpr rfl,
   (handle_page_fault_spec (fun _ _ => .ok ()) 0).2.2.2.2.1 .Interrupt
     (by decide) (by decide) (by decide),
   (handle_page_fault_spec (fun _ _ => .ok ()) 0).1 (.Exception .LoadPageFault)⟩

/-- C10: every operation on an empty (`new_empty`) `UserMmap` is a no-op:
`make_executable` and `make_readonly` return `Ok(())` leaving the address
space unchanged and performing no page-table update and no flush, and the
user-space copies with an empty requested range and an empty buffer
return `Ok(())` with no commit action, whatever faults the hardware could
raise elsewhere. -/
theorem new_empty_noop (a : AddressSpace) (oracle : Nat → Bool) :
    UserMmap.new_empty.make_executable a = (a, [], .ok ()) ∧
    UserMmap.new_empty.make_readonly a = (a, [], .ok ()) ∧
    UserMmap.new_empty.copy_from_userspace a ⟨0, 0⟩ 0 oracle = ([], .ok ()) ∧
    UserMmap.new_empty.copy_to_userspace a 0 ⟨0, 0⟩ oracle = ([], .ok ()) := by
  exact ⟨rfl, rfl, rfl, rfl⟩

end K23
